import Mathlib

/-!
Verification of the microcosm scoped-cache / fan-out-gather core.

The definitions below are a shallow embedding of the Go source under
`src/`.  Pure computations become Lean functions; the SQL data store, the
memcached-backed cache service and the per-request goroutines are external
collaborators and are represented as explicit parameters: the data store as
a query function, the cache as an association list threaded through each
call, and goroutine completion order as an explicit permutation of the
fan-out sequence numbers.  Definitions marked `Modelled from the spec:` are
for code of this repository that is not included under `src/` (the cache
package and the pagination helpers); they follow the natural-language
specification of those components.
-/

/-- Mirror of `ProfileSummaryType` (src/unnamed/part_000).  The `Meta.Links`
presentation field is omitted: it is a constant rendering of `Id`/`SiteId`
and carries no further state. -/
structure ProfileSummaryType where
  Id : Int := 0
  SiteId : Int := 0
  UserId : Int := 0
  ProfileName : String := ""
  Visible : Bool := false
  AvatarUrlNullable : Option String := none
  AvatarUrl : String := ""
  AvatarIdNullable : Option Int := none
  AvatarId : Int := 0
deriving DecidableEq, Repr

/-- Mirror of `EventType` (src/models/events.go).  `Meta` is flattened into
the fields the embedded code paths touch (`CreatedById`, `EditedByNullable`,
the fetched profile summaries and the `Attending` flag); link rendering is
omitted.  Note the Go struct carries no `SiteId` field at all. -/
structure EventType where
  Id : Int := 0
  MicrocosmId : Int := 0
  Title : String := ""
  CreatedById : Int := 0
  EditedByNullable : Option Int := none
  CreatedBy : Option ProfileSummaryType := none
  EditedBy : Option ProfileSummaryType := none
  Attending : Bool := false
deriving DecidableEq, Repr

/-- Mirror of the `LastComment` value used by `EventSummaryType`. -/
structure LastComment where
  CommentId : Int := 0
  CreatedById : Int := 0
  CreatedBy : Option ProfileSummaryType := none
deriving DecidableEq, Repr

/-- Mirror of `EventSummaryType` (src/models/events.go), flattened like
`EventType`. -/
structure EventSummaryType where
  Id : Int := 0
  MicrocosmId : Int := 0
  Title : String := ""
  CreatedById : Int := 0
  WhenNullable : Option String := none
  When : String := ""
  WhereNullable : Option String := none
  Where : String := ""
  Status : String := ""
  RSVPLimit : Int := 0
  LastComment : Option LastComment := none
  CreatedBy : Option ProfileSummaryType := none
  Attending : Bool := false
deriving DecidableEq, Repr

/-- The shapes a cache slot can hold (`CacheEntry` value-kind tag of the
spec data model). -/
inductive CacheValue where
  | vProfileSummary (s : ProfileSummaryType)
  | vEvent (e : EventType)
  | vEventSummary (s : EventSummaryType)
  | vInt64 (n : Int)
  | vInt64Slice (l : List Int)
deriving DecidableEq, Repr

/-- A stored cache value together with its absolute expiry instant
(write time plus TTL). -/
structure CacheEntry where
  value : CacheValue
  expires : Int
deriving DecidableEq, Repr

/-- The process-wide cache, as an association list keyed by the rendered
cache-key string. -/
abbrev Cache := List (String × CacheEntry)

/-- Modelled from the spec: the cache package is not under `src/`.  A raw
lookup returns the stored value only when the key is present and the entry
has not expired at instant `now`; an expired or absent entry is a miss. -/
def cacheLookup (cache : Cache) (now : Int) (key : String) : Option CacheValue :=
  match cache.find? (fun kv => kv.1 == key) with
  | some kv => if now < kv.2.expires then some kv.2.value else none
  | none => none

/-- Modelled from the spec: `CacheGet` typed retrieval for
`ProfileSummaryType`.  A stored value whose shape does not match the
requested type is treated as not found (fail-open), never as an error. -/
def CacheGetProfileSummary (cache : Cache) (now : Int) (key : String) :
    Option ProfileSummaryType :=
  match cacheLookup cache now key with
  | some (CacheValue.vProfileSummary s) => some s
  | _ => none

/-- Modelled from the spec: `CacheGet` typed retrieval for `EventType`. -/
def CacheGetEvent (cache : Cache) (now : Int) (key : String) : Option EventType :=
  match cacheLookup cache now key with
  | some (CacheValue.vEvent e) => some e
  | _ => none

/-- Modelled from the spec: `CacheGet` typed retrieval for
`EventSummaryType`. -/
def CacheGetEventSummary (cache : Cache) (now : Int) (key : String) :
    Option EventSummaryType :=
  match cacheLookup cache now key with
  | some (CacheValue.vEventSummary s) => some s
  | _ => none

/-- Modelled from the spec: `CacheGetInt64`, the integer-counter variant. -/
def CacheGetInt64 (cache : Cache) (now : Int) (key : String) : Option Int :=
  match cacheLookup cache now key with
  | some (CacheValue.vInt64 n) => some n
  | _ => none

/-- Modelled from the spec: `CacheGetInt64Slice`, the identifier-list
variant. -/
def CacheGetInt64Slice (cache : Cache) (now : Int) (key : String) :
    Option (List Int) :=
  match cacheLookup cache now key with
  | some (CacheValue.vInt64Slice l) => some l
  | _ => none

/-- Modelled from the spec: `CacheSet` overwrites unconditionally and arms
the entry with a TTL counted from the write instant. -/
def CacheSet (cache : Cache) (now : Int) (key : String) (v : CacheValue)
    (ttl : Int) : Cache :=
  (key, { value := v, expires := now + ttl }) ::
    cache.filter (fun kv => kv.1 ≠ key)

/-- Modelled from the spec: the fixed read-through TTL `mcTtl` of the
models package (its numeric value is defined outside `src/`; no claim
depends on it). -/
def mcTtl : Int := 3600

/-- Modelled from the spec: key template for (profile, Summary), rendered
from `mcProfileKeys` which is defined outside `src/`.  Templates for
distinct (kind, scope) pairs render to distinct keys. -/
def mcProfileKeySummary (id : Int) : String := "ps_" ++ toString id

/-- Modelled from the spec: key template for (event, Detail). -/
def mcEventKeyDetail (id : Int) : String := "ed_" ++ toString id

/-- Modelled from the spec: key template for (event, Summary). -/
def mcEventKeySummary (id : Int) : String := "es_" ++ toString id

/-- Modelled from the spec: key template for (event, RelatedIds), the
attendee profile-id list. -/
def mcEventKeyProfileIds (id : Int) : String := "ea_" ++ toString id

/-- Outcome of a single-row SQL query: a row, `sql.ErrNoRows`, or a
database/connection failure. -/
inductive DbRes (α : Type) where
  | row (a : α)
  | noRows
  | fail (e : String)
deriving DecidableEq, Repr

/-- Avatar enrichment performed by `GetProfileSummary` after a successful
row scan (src/unnamed/part_000, lines 951-956): the nullable columns are
copied into the plain fields when valid. -/
def profileSummaryEnrich (m : ProfileSummaryType) : ProfileSummaryType :=
  let m1 := match m.AvatarIdNullable with
    | some v => { m with AvatarId := v }
    | none => m
  match m1.AvatarUrlNullable with
  | some s => { m1 with AvatarUrl := s }
  | none => m1

/-- Embedding of `GetProfileSummary` (src/unnamed/part_000, lines 883-967).
`db siteId id` is the authoritative single-row query (`WHERE site_id = $1
AND profile_id = $2`); a failed connection and a failed query are folded
into `DbRes.fail` as both return status 500 with the error.  The function
returns the Go triple `(m, status, err)` together with the cache after the
call. -/
def GetProfileSummary (db : Int → Int → DbRes ProfileSummaryType)
    (cache : Cache) (now siteId id : Int) :
    (ProfileSummaryType × Nat × Option String) × Cache :=
  if id = 0 then
    (({}, 404, some "Profile not found"), cache)
  else
    let mcKey := mcProfileKeySummary id
    match CacheGetProfileSummary cache now mcKey with
    | some m =>
      if m.SiteId ≠ siteId then
        (({}, 404, some "Not found"), cache)
      else
        ((m, 200, none), cache)
    | none =>
      match db siteId id with
      | DbRes.fail e => (({}, 500, some e), cache)
      | DbRes.noRows =>
        (({}, 404,
          some ("Resource with profile ID " ++ toString id ++ " not found")),
         cache)
      | DbRes.row m0 =>
        let m := profileSummaryEnrich m0
        ((m, 200, none),
         CacheSet cache now mcKey (CacheValue.vProfileSummary m) mcTtl)

/-- Embedding of `IsAttending` (src/models/events.go, lines 224-268).
`dbAttendees eventId` is the attendee-id query; on a cache miss the result
list is written back with TTL `mcTtl`, then scanned for `profileId`. -/
def IsAttending (dbAttendees : Int → Except String (List Int))
    (cache : Cache) (now profileId eventId : Int) :
    (Except String Bool) × Cache :=
  if profileId = 0 ∨ eventId = 0 then
    (Except.ok false, cache)
  else
    let key := mcEventKeyProfileIds eventId
    match CacheGetInt64Slice cache now key with
    | some attendeeIds =>
      (Except.ok (attendeeIds.contains profileId), cache)
    | none =>
      match dbAttendees eventId with
      | Except.error e => (Except.error e, cache)
      | Except.ok attendeeIds =>
        (Except.ok (attendeeIds.contains profileId),
         CacheSet cache now key (CacheValue.vInt64Slice attendeeIds) mcTtl)

/-- Embedding of `(*EventType).FetchProfileSummaries` (src/models/events.go,
lines 166-184): hydrate the creator (and, when present, the editor) through
`GetProfileSummary`; the first failure is returned as-is. -/
def EventType.FetchProfileSummaries
    (db : Int → Int → DbRes ProfileSummaryType) (cache : Cache)
    (now siteId : Int) (m : EventType) :
    (EventType × Nat × Option String) × Cache :=
  match GetProfileSummary db cache now siteId m.CreatedById with
  | ((_, status, some e), c1) => ((m, status, some e), c1)
  | ((profile, _, none), c1) =>
    let m1 := { m with CreatedBy := some profile }
    match m1.EditedByNullable with
    | none => ((m1, 200, none), c1)
    | some editedBy =>
      match GetProfileSummary db c1 now siteId editedBy with
      | ((_, status, some e), c2) => ((m1, status, some e), c2)
      | ((p2, _, none), c2) => (({ m1 with EditedBy := some p2 }, 200, none), c2)

/-- Embedding of `(*EventType).GetAttending` (src/models/events.go, lines
270-281). -/
def EventType.GetAttending (dbAttendees : Int → Except String (List Int))
    (cache : Cache) (now profileId : Int) (m : EventType) :
    (EventType × Nat × Option String) × Cache :=
  if profileId = 0 then
    ((m, 200, none), cache)
  else
    match IsAttending dbAttendees cache now profileId m.Id with
    | (Except.error e, c1) => ((m, 500, some e), c1)
    | (Except.ok b, c1) => (({ m with Attending := b }, 200, none), c1)

/-- Embedding of `GetEvent` (src/models/events.go, lines 636-812).  On a
cache hit the stored event is hydrated and returned with NO comparison of
any tenant identity against `siteId` (the source carries a TODO dated
2014-05-05 admitting this), and the Go code returns status literal `0` on
that path.  `dbEvent siteId id` is the detail query, whose flags join is
what scopes an event to a site. -/
def GetEvent (dbEvent : Int → Int → DbRes EventType)
    (dbProfile : Int → Int → DbRes ProfileSummaryType)
    (dbAttendees : Int → Except String (List Int))
    (cache : Cache) (now siteId id profileId : Int) :
    (EventType × Nat × Option String) × Cache :=
  if id = 0 then
    (({}, 404, some "Event not found"), cache)
  else
    let mcKey := mcEventKeyDetail id
    match CacheGetEvent cache now mcKey with
    | some m =>
      match EventType.FetchProfileSummaries dbProfile cache now siteId m with
      | ((_, status, some e), c1) => (({}, status, some e), c1)
      | ((m1, _, none), c1) =>
        match EventType.GetAttending dbAttendees c1 now profileId m1 with
        | ((_, status, some e), c2) => (({}, status, some e), c2)
        | ((m2, _, none), c2) => ((m2, 0, none), c2)
    | none =>
      match dbEvent siteId id with
      | DbRes.fail _ => (({}, 500, some "Database query failed"), cache)
      | DbRes.noRows => (({}, 404, some "Event not found"), cache)
      | DbRes.row m0 =>
        let c1 := CacheSet cache now mcKey (CacheValue.vEvent m0) mcTtl
        match EventType.FetchProfileSummaries dbProfile c1 now siteId m0 with
        | ((_, status, some e), c2) => (({}, status, some e), c2)
        | ((m1, _, none), c2) =>
          match EventType.GetAttending dbAttendees c2 now profileId m1 with
          | ((_, status, some e), c3) => (({}, status, some e), c3)
          | ((m2, _, none), c3) => ((m2, 200, none), c3)

/-- Embedding of `(*EventSummaryType).FetchProfileSummaries`
(src/models/events.go, lines 186-222): hydrate the creator, then, when a
last comment is attached, its author. -/
def EventSummaryType.FetchProfileSummaries
    (db : Int → Int → DbRes ProfileSummaryType) (cache : Cache)
    (now siteId : Int) (m : EventSummaryType) :
    (EventSummaryType × Nat × Option String) × Cache :=
  match GetProfileSummary db cache now siteId m.CreatedById with
  | ((_, status, some e), c1) => ((m, status, some e), c1)
  | ((profile, _, none), c1) =>
    let m1 := { m with CreatedBy := some profile }
    match m1.LastComment with
    | none => ((m1, 200, none), c1)
    | some lc =>
      match GetProfileSummary db c1 now siteId lc.CreatedById with
      | ((_, status, some e), c2) => ((m1, status, some e), c2)
      | ((p2, _, none), c2) =>
        (({ m1 with LastComment := some { lc with CreatedBy := some p2 } },
           200, none), c2)

/-- Embedding of `(*EventSummaryType).GetAttending` (src/models/events.go,
lines 283-294). -/
def EventSummaryType.GetAttending
    (dbAttendees : Int → Except String (List Int)) (cache : Cache)
    (now profileId : Int) (m : EventSummaryType) :
    (EventSummaryType × Nat × Option String) × Cache :=
  if profileId = 0 then
    ((m, 200, none), cache)
  else
    match IsAttending dbAttendees cache now profileId m.Id with
    | (Except.error e, c1) => ((m, 500, some e), c1)
    | (Except.ok b, c1) => (({ m with Attending := b }, 200, none), c1)

/-- When/Where enrichment performed by `GetEventSummary` after a successful
row scan (src/models/events.go, lines 938-944). -/
def eventSummaryEnrich (m : EventSummaryType) : EventSummaryType :=
  let m1 := match m.WhenNullable with
    | some w => { m with When := w }
    | none => m
  match m1.WhereNullable with
  | some w => { m1 with Where := w }
  | none => m1

/-- Embedding of `GetEventSummary` (src/models/events.go, lines 814-985).
`dbEvSum id` is the summary query, which filters by `event_id` alone (no
`site_id` predicate); `lastComment id` stands for `GetLastComment`.  Note
the `sql.ErrNoRows` branch returns status 500 (`StatusInternalServerError`)
with an "... not found" error, and that it returns before any cache
write. -/
def GetEventSummary (dbEvSum : Int → DbRes EventSummaryType)
    (dbProfile : Int → Int → DbRes ProfileSummaryType)
    (dbAttendees : Int → Except String (List Int))
    (lastComment : Int → Except (Nat × String) (Option LastComment))
    (cache : Cache) (now siteId id profileId : Int) :
    (EventSummaryType × Nat × Option String) × Cache :=
  if id = 0 then
    (({}, 404, some "Event not found"), cache)
  else
    let mcKey := mcEventKeySummary id
    match CacheGetEventSummary cache now mcKey with
    | some m =>
      match EventSummaryType.FetchProfileSummaries dbProfile cache now siteId m with
      | ((_, status, some e), c1) => (({}, status, some e), c1)
      | ((m1, _, none), c1) =>
        match EventSummaryType.GetAttending dbAttendees c1 now profileId m1 with
        | ((_, status, some e), c2) => (({}, status, some e), c2)
        | ((m2, _, none), c2) => ((m2, 200, none), c2)
    | none =>
      match dbEvSum id with
      | DbRes.fail _ => (({}, 500, some "Database query failed"), cache)
      | DbRes.noRows =>
        (({}, 500, some ("Event with ID " ++ toString id ++ " not found")),
         cache)
      | DbRes.row m0 =>
        let m1 := eventSummaryEnrich m0
        match lastComment m1.Id with
        | Except.error (status, e) =>
          (({}, status, some ("Error fetching last comment: " ++ e)), cache)
        | Except.ok lc =>
          let m2 := match lc with
            | some l => { m1 with LastComment := some l }
            | none => m1
          let c1 := CacheSet cache now mcKey (CacheValue.vEventSummary m2) mcTtl
          match EventSummaryType.FetchProfileSummaries dbProfile c1 now siteId m2 with
          | ((_, status, some e), c2) => (({}, status, some e), c2)
          | ((m3, _, none), c2) =>
            match EventSummaryType.GetAttending dbAttendees c2 now profileId m3 with
            | ((_, status, some e), c3) => (({}, status, some e), c3)
            | ((m4, _, none), c3) => ((m4, 200, none), c3)

/-- Mirror of `ProfileSummaryRequest` (src/unnamed/part_000, lines 73-78):
the aggregation unit carrying the fetched item, its status/error and the
fan-out sequence number `Seq`. -/
structure ProfileSummaryRequest where
  Item : ProfileSummaryType
  Err : Option String
  Status : Nat
  Seq : Nat
deriving DecidableEq, Repr

/-- What one concurrent `HandleProfileSummaryRequest` goroutine produced:
the `GetProfileSummary` triple it observed, plus the cache write (if any)
it performed before sending its response.  Concurrency is abstracted: each
unit's outcome is a parameter, and the interleaving of the shared cache is
folded into these outcomes. -/
structure UnitOutcome where
  Item : ProfileSummaryType
  Status : Nat
  Err : Option String
  write : Option (String × CacheEntry)
deriving DecidableEq, Repr

/-- Embedding of `HandleProfileSummaryRequest` (src/unnamed/part_000, lines
865-881): tag a unit's outcome with its sequence number. -/
def HandleProfileSummaryRequest (seq : Nat) (u : UnitOutcome) :
    ProfileSummaryRequest :=
  { Item := u.Item, Err := u.Err, Status := u.Status, Seq := seq }

/-- The comparison used by `ProfileSummaryRequestBySeq.Less`
(src/unnamed/part_000, line 90): order requests by `Seq`. -/
def bySeqLE (a b : ProfileSummaryRequest) : Prop := a.Seq ≤ b.Seq

instance : DecidableRel bySeqLE := fun a b => inferInstanceAs (Decidable (a.Seq ≤ b.Seq))

instance : IsTotal ProfileSummaryRequest bySeqLE := ⟨fun a b => Nat.le_total a.Seq b.Seq⟩

instance : IsTrans ProfileSummaryRequest bySeqLE := ⟨fun _ _ _ => Nat.le_trans⟩

/-- The `sort.Sort(ProfileSummaryRequestBySeq(resps))` step
(src/unnamed/part_000, line 1222).  Go's sort only guarantees a
`Less`-sorted permutation; since every use sorts requests with pairwise
distinct `Seq`, that permutation is unique, and any sorted permutation —
here insertion sort — is a faithful model. -/
def sortBySeq (resps : List ProfileSummaryRequest) : List ProfileSummaryRequest :=
  List.insertionSort bySeqLE resps

/-- The `([]ProfileSummaryType, status, err)` portion of the `GetProfiles`
return value produced by the gather phase. -/
structure ProfilesResult where
  ems : List ProfileSummaryType
  status : Nat
  err : Option String
deriving DecidableEq, Repr

/-- Embedding of the fan-out/gather phase of `GetProfiles`
(src/unnamed/part_000, lines 1198-1227).  `ids` is the ordered ID page,
`fetch seq id` the outcome of the goroutine spawned for position `seq`,
and `order` the order in which the goroutines' responses arrive on the
shared channel (a permutation of `0..ids.length-1`).  The receive loop
collects exactly `ids.length` responses — so every unit has completed and
performed its cache write — then scans the collected responses in arrival
order for the first non-nil error, and only after that scan sorts by `Seq`
and extracts the items.  Returned alongside the result are the cache
writes performed by all units, in arrival order. -/
def profilesAggregate (ids : List Int) (fetch : Nat → Int → UnitOutcome)
    (order : List Nat) : ProfilesResult × List (String × CacheEntry) :=
  let unit := fun seq => HandleProfileSummaryRequest seq (fetch seq (ids.getD seq 0))
  let resps := order.map unit
  let writes := order.filterMap (fun seq => (fetch seq (ids.getD seq 0)).write)
  match resps.find? (fun r => r.Err.isSome) with
  | some r => ({ ems := [], status := r.Status, err := r.Err }, writes)
  | none =>
    ({ ems := (sortBySeq resps).map (fun r => r.Item), status := 200,
       err := none }, writes)

/-- Modelled from the spec: `h.GetPageCount` lives in the helpers package,
absent from `src/`; per spec §4.4 it computes `pages = ceil(total/limit)`,
written here with integer arithmetic. -/
def GetPageCount (total limit : Int) : Int := (total + limit - 1) / limit

/-- Modelled from the spec: `h.GetMaxOffset` (helpers package, absent from
`src/`); per spec §4.4, `maxOffset = max(0, (pages-1)*limit)`. -/
def GetMaxOffset (total limit : Int) : Int :=
  max 0 ((GetPageCount total limit - 1) * limit)

/-- Embedding of the offset validation tail shared by `GetProfiles`
(src/unnamed/part_000, lines 1229-1241) and `GetEvents`
(src/models/events.go, lines 1095-1107): an offset beyond the maximum
valid offset is rejected with HTTP 400. -/
def offsetCheck (total limit offset : Int) : Nat × Option String :=
  if offset > GetMaxOffset total limit then
    (400, some ("not enough records, offset (" ++ toString offset ++
      ") would return an empty page."))
  else
    (200, none)

/-- Item-type identifiers of `h.ItemTypes`.  The helpers registry is not
under `src/`, but the numeric values appear as constants in the SQL of
`src/` (ignores join: microcosm = 2, profile = 3; event flags: 9). -/
def ItemTypeMicrocosm : Int := 2

/-- Item-type identifier for profiles (see `ItemTypeMicrocosm`). -/
def ItemTypeProfile : Int := 3

/-- Item-type identifier for events (see `ItemTypeMicrocosm`). -/
def ItemTypeEvent : Int := 9

/-- A cache purge performed by a mutation path: `PurgeCache` removes the
entries of every scope of an item, `PurgeCacheByScope` a single scope's. -/
inductive PurgeOp where
  | all (itemTypeId itemId : Int)
  | scope (scopeName : String) (itemTypeId itemId : Int)
deriving DecidableEq, Repr

/-- Modelled from the spec: `h.Md5sum` (helpers package, absent from
`src/`).  The dedup fingerprint hash is modelled as the identity on the
hashed text; the claims under study depend only on equal inputs hashing
equally. -/
def Md5sum (s : String) : String := s

/-- The semantically-significant event fields entering the dedup
fingerprint of `EventType.Insert` (src/models/events.go, lines 315-329),
as they stand after `Validate`.  The `float64` coordinates are modelled as
integers; their `fmt.Sprintf("%b", _)` rendering is an injective encoding
and is modelled by `toString`. -/
structure EventFields where
  MicrocosmId : Int := 0
  Title : String := ""
  WhenStr : String := ""
  WhereStr : String := ""
  Lat : Int := 0
  Lon : Int := 0
  North : Int := 0
  East : Int := 0
  South : Int := 0
  West : Int := 0
  Status : String := ""
  RSVPLimit : Int := 0
  CreatedById : Int := 0
deriving DecidableEq, Repr

/-- The `dupeKey` fingerprint of `EventType.Insert` (src/models/events.go,
lines 315-329): `"dupe_"` plus the hash of the concatenated
semantically-significant fields. -/
def dupeKey (e : EventFields) : String :=
  "dupe_" ++ Md5sum (toString e.MicrocosmId ++ e.Title ++ e.WhenStr ++
    e.WhereStr ++ toString e.Lat ++ toString e.Lon ++ toString e.North ++
    toString e.East ++ toString e.South ++ toString e.West ++ e.Status ++
    toString e.RSVPLimit ++ toString e.CreatedById)

/-- Modelled from the spec: `c.CacheSetInt64` (cache package, absent from
`src/`): store an integer under a key with the given TTL. -/
def CacheSetInt64 (cache : Cache) (now : Int) (key : String) (v : Int)
    (ttl : Int) : Cache :=
  CacheSet cache now key (CacheValue.vInt64 v) ttl

/-- The events table, abstracted to the inserted rows and the sequence
that yields `RETURNING event_id`. -/
structure EventsDb where
  rows : List (Int × EventFields)
  nextId : Int
deriving DecidableEq, Repr

/-- Success/failure of the external steps of `EventType.Insert` after
validation: obtaining the transaction, the INSERT, the microcosm counter
increment, and the commit. -/
structure InsertEnv where
  txOk : Bool
  insertOk : Bool
  incrementOk : Bool
  commitOk : Bool
deriving DecidableEq, Repr

/-- The observable outcome of one `EventType.Insert` call: the resulting
`m.Id`, the returned status/error, whether a transaction was ever opened,
and the purges performed. -/
structure InsertResult where
  id : Int
  status : Nat
  err : Option String
  txOpened : Bool
  purges : List PurgeOp
deriving DecidableEq, Repr

/-- Embedding of `EventType.Insert` (src/models/events.go, lines 296-402)
from the point after `Validate` has succeeded (the claim under study
concerns validated inputs; `e` holds the post-`Validate` fields).  The
fingerprint is checked first: a hit sets `m.Id` to the remembered ID and
returns 200 before any transaction is opened.  On a miss the row is
inserted inside a transaction; after a successful commit the fingerprint
is remembered for `60*5` seconds and the event and microcosm caches are
purged. -/
def EventTypeInsert (env : InsertEnv) (e : EventFields) (cache : Cache)
    (db : EventsDb) (now : Int) : InsertResult × Cache × EventsDb :=
  let key := dupeKey e
  match CacheGetInt64 cache now key with
  | some v =>
    ({ id := v, status := 200, err := none, txOpened := false, purges := [] },
     cache, db)
  | none =>
    if !env.txOk then
      ({ id := 0, status := 500, err := some "Could not get transaction",
         txOpened := false, purges := [] }, cache, db)
    else if !env.insertOk then
      ({ id := 0, status := 500,
         err := some "Error inserting data and returning ID",
         txOpened := true, purges := [] }, cache, db)
    else
      let newId := db.nextId
      if !env.incrementOk then
        ({ id := newId, status := 500,
           err := some "Could not increment microcosm item count",
           txOpened := true, purges := [] }, cache, db)
      else if !env.commitOk then
        ({ id := newId, status := 500, err := some "Transaction failed",
           txOpened := true, purges := [] }, cache, db)
      else
        ({ id := newId, status := 200, err := none, txOpened := true,
           purges := [PurgeOp.all ItemTypeEvent newId,
                      PurgeOp.all ItemTypeMicrocosm e.MicrocosmId] },
         CacheSetInt64 cache now key newId (60*5),
         { rows := db.rows ++ [(newId, e)], nextId := newId + 1 })

/-- The observable outcome of a mutating operation for the purge/commit
claims: returned status/error, the purges performed, and whether the
surrounding transaction was committed. -/
structure MutationResult where
  status : Nat
  err : Option String
  purges : List PurgeOp
  committed : Bool
deriving DecidableEq, Repr

/-- Success/failure of the external steps of `(*ProfileType).Update`
(src/unnamed/part_000, lines 397-453): validation, transaction start, the
UPDATE statement, and the commit. -/
structure ProfileUpdateEnv where
  validateErr : Option (Nat × String)
  txOk : Bool
  execOk : Bool
  commitOk : Bool
deriving DecidableEq, Repr

/-- Embedding of `(*ProfileType).Update` (src/unnamed/part_000, lines
397-453): on any failure the function returns before `PurgeCache`; only a
successful commit is followed by `PurgeCache(profile, m.Id)`. -/
def ProfileTypeUpdate (env : ProfileUpdateEnv) (profileId : Int) :
    MutationResult :=
  match env.validateErr with
  | some (st, e) => { status := st, err := some e, purges := [], committed := false }
  | none =>
    if !env.txOk then
      { status := 500, err := some "Could not start transaction",
        purges := [], committed := false }
    else if !env.execOk then
      { status := 500, err := some "Update of profile failed",
        purges := [], committed := false }
    else if !env.commitOk then
      { status := 500, err := some "Transaction failed",
        purges := [], committed := false }
    else
      { status := 200, err := none,
        purges := [PurgeOp.all ItemTypeProfile profileId], committed := true }

/-- Success/failure of the external steps of `(*EventType).Update`
(src/models/events.go, lines 404-483). -/
structure EventUpdateEnv where
  validateErr : Option (Nat × String)
  txOk : Bool
  execOk : Bool
  attendeesOk : Bool
  commitOk : Bool
deriving DecidableEq, Repr

/-- Embedding of `(*EventType).Update` (src/models/events.go, lines
404-483): validation, UPDATE, `UpdateAttendees`, commit; only after a
successful commit are the event's and its microcosm's caches purged. -/
def EventTypeUpdate (env : EventUpdateEnv) (eventId microcosmId : Int) :
    MutationResult :=
  match env.validateErr with
  | some (st, e) => { status := st, err := some e, purges := [], committed := false }
  | none =>
    if !env.txOk then
      { status := 500, err := some "Could not get transaction",
        purges := [], committed := false }
    else if !env.execOk then
      { status := 500, err := some "Update of event failed",
        purges := [], committed := false }
    else if !env.attendeesOk then
      { status := 500, err := some "Update of event attendees failed",
        purges := [], committed := false }
    else if !env.commitOk then
      { status := 500, err := some "Transaction failed",
        purges := [], committed := false }
    else
      { status := 200, err := none,
        purges := [PurgeOp.all ItemTypeEvent eventId,
                   PurgeOp.all ItemTypeMicrocosm microcosmId],
        committed := true }

/-- Success/failure of the external steps of the private
`(*ProfileType).insert` (src/unnamed/part_000, lines 247-389), called with
`isImport = false`: transaction start, the INSERT, loading and inserting
profile options, the commit, then — after the commit — fetching the user,
storing the gravatar, attaching the avatar, and the nested `m.Update()`
call (whose own success purges the profile's cache). -/
structure ProfileInsertEnv where
  txOk : Bool
  insertOk : Bool
  optionsLoadOk : Bool
  optionsInsertOk : Bool
  commitOk : Bool
  getUserOk : Bool
  gravatarOk : Bool
  attachOk : Bool
  updateOk : Bool
deriving DecidableEq, Repr

/-- Embedding of `(*ProfileType).insert` with `isImport = false`
(src/unnamed/part_000, lines 247-389).  Every failure after the commit
returns an error without any purge having run; on full success the nested
`m.Update()` purges the profile synchronously and `go PurgeCache` purges
it again. -/
def ProfileTypeInsert (env : ProfileInsertEnv) (profileId : Int) :
    MutationResult :=
  if !env.txOk then
    { status := 500, err := some "Could not start transaction",
      purges := [], committed := false }
  else if !env.insertOk then
    { status := 500, err := some "Error inserting data and returning ID",
      purges := [], committed := false }
  else if !env.optionsLoadOk then
    { status := 500, err := some "Could not load default profile options",
      purges := [], committed := false }
  else if !env.optionsInsertOk then
    { status := 500, err := some "Could not insert new profile options",
      purges := [], committed := false }
  else if !env.commitOk then
    { status := 500, err := some "Transaction failed",
      purges := [], committed := false }
  else if !env.getUserOk then
    { status := 500, err := some "No user found for profile",
      purges := [], committed := true }
  else if !env.gravatarOk then
    { status := 500, err := some "Could not store gravatar for profile",
      purges := [], committed := true }
  else if !env.attachOk then
    { status := 500, err := some "Could not attach avatar to profile",
      purges := [], committed := true }
  else if !env.updateOk then
    { status := 500, err := some "Could not update profile with avatar",
      purges := [], committed := true }
  else
    { status := 200, err := none,
      purges := [PurgeOp.all ItemTypeProfile profileId,
                 PurgeOp.all ItemTypeProfile profileId],
      committed := true }

/-- Outcome of a counter increment: whether the UPDATE was applied and the
purges performed. -/
structure CounterResult where
  applied : Bool
  purges : List PurgeOp
deriving DecidableEq, Repr

/-- Embedding of `IncrementProfileCommentCount` (src/unnamed/part_000,
lines 503-523): a plain `db.Exec` (no explicit transaction); only when it
succeeds is the profile's `Detail` scope purged. -/
def IncrementProfileCommentCount (connOk execOk : Bool) (profileId : Int) :
    CounterResult :=
  if !connOk then
    { applied := false, purges := [] }
  else if !execOk then
    { applied := false, purges := [] }
  else
    { applied := true,
      purges := [PurgeOp.scope "detail" ItemTypeProfile profileId] }

/-- Mirror of `IgnoreType` (src/models/ignores.go, lines 20-26). -/
structure IgnoreType where
  ProfileId : Int := 0
  ItemTypeId : Int := 0
  ItemType : String := ""
  ItemId : Int := 0
deriving DecidableEq, Repr

/-- The `h.ItemTypes` registry.  It lives in the helpers package (not under
`src/`); the name/number pairs used here are the ones the SQL constants in
`src/` pin down, and `IgnoreType.Validate` only consults membership. -/
def ItemTypes : List (String × Int) :=
  [("microcosm", 2), ("profile", 3), ("comment", 4), ("huddle", 5),
   ("conversation", 6), ("event", 9)]

/-- Embedding of `(*IgnoreType).Validate` (src/models/ignores.go, lines
28-53). -/
def IgnoreValidate (m : IgnoreType) : Except (Nat × String) IgnoreType :=
  if m.ProfileId ≤ 0 then
    Except.error (400, "profileId must be a positive integer.")
  else
    match ItemTypes.find? (fun kv => kv.1 == m.ItemType) with
    | none => Except.error (400, "You must specify a valid item type")
    | some kv =>
      let m1 := { m with ItemTypeId := kv.2 }
      if m1.ItemId ≤ 0 then
        Except.error (400, "You must specify an Item ID this comment belongs to")
      else
        Except.ok m1

/-- Returned status/error of an ignore write, plus whether the transaction
was committed. -/
structure IgnoreWriteResult where
  status : Nat
  err : Option String
  committed : Bool
deriving DecidableEq, Repr

/-- The ignores table: (profile_id, item_type_id, item_id) rows. -/
abbrev IgnoresDb := List (Int × Int × Int)

/-- Embedding of `(*IgnoreType).Update` (src/models/ignores.go, lines
55-85).  After validation and `GetTransaction`, the INSERT's error is
never inspected (`tx.Exec` is called without capturing its error);
`execOk` only decides whether the row lands in the table.  The guard
`if err == nil` re-reads the `GetTransaction` error, which is nil on this
path, so the commit always runs and the function returns `(200, nil)`
unconditionally. -/
def IgnoreTypeUpdate (txOk execOk : Bool) (db : IgnoresDb) (m : IgnoreType) :
    IgnoreWriteResult × IgnoresDb :=
  match IgnoreValidate m with
  | Except.error (st, e) =>
    ({ status := st, err := some e, committed := false }, db)
  | Except.ok m1 =>
    if !txOk then
      ({ status := 500, err := some "Could not get transaction",
         committed := false }, db)
    else
      let db1 := if execOk then db ++ [(m1.ProfileId, m1.ItemTypeId, m1.ItemId)]
        else db
      ({ status := 200, err := none, committed := true }, db1)

/-- Embedding of `(*IgnoreType).Delete` (src/models/ignores.go, lines
87-116), structured exactly like `IgnoreTypeUpdate`: the DELETE's error is
discarded and the function returns `(200, nil)` once a transaction was
obtained. -/
def IgnoreTypeDelete (txOk execOk : Bool) (db : IgnoresDb) (m : IgnoreType) :
    IgnoreWriteResult × IgnoresDb :=
  match IgnoreValidate m with
  | Except.error (st, e) =>
    ({ status := st, err := some e, committed := false }, db)
  | Except.ok m1 =>
    if !txOk then
      ({ status := 500, err := some "Could not get transaction",
         committed := false }, db)
    else
      let db1 := if execOk then
        db.filter (fun r =>
          ¬(r.1 = m1.ProfileId ∧ r.2.1 = m1.ItemTypeId ∧ r.2.2 = m1.ItemId))
        else db
      ({ status := 200, err := none, committed := true }, db1)

/-- Strict version of the `Seq` ordering, used to pin down the unique
sorted permutation when all sequence numbers are distinct. -/
def bySeqLT (a b : ProfileSummaryRequest) : Prop := a.Seq < b.Seq

instance : IsAntisymm ProfileSummaryRequest bySeqLT :=
  ⟨fun _ _ h1 h2 => absurd h2 (Nat.lt_asymm h1)⟩

/-- A list that is `Seq`-nondecreasing and has pairwise distinct `Seq`
values is strictly `Seq`-increasing. -/
theorem sorted_bySeqLT_of_le_of_nodup (l : List ProfileSummaryRequest)
    (hs : l.Sorted bySeqLE)
    (hn : (l.map (fun r => r.Seq)).Nodup) : l.Sorted bySeqLT := by
  have hne : l.Pairwise (fun a b => a.Seq ≠ b.Seq) := by
    rw [List.Nodup, List.pairwise_map] at hn
    exact hn
  exact (List.Pairwise.and hs hne).imp
    (fun h => Nat.lt_of_le_of_ne h.1 h.2)

/-- Tagging the positions `0..n-1` in order yields a strictly
`Seq`-increasing list. -/
theorem sorted_bySeqLT_map_range (u : Nat → ProfileSummaryRequest)
    (hu : ∀ i, (u i).Seq = i) (n : Nat) :
    ((List.range n).map u).Sorted bySeqLT := by
  rw [List.Sorted, List.pairwise_map]
  exact (List.pairwise_lt_range n).imp
    (fun {a b} h => by simpa [bySeqLT, hu] using h)

/-- Restoring input order: sorting by `Seq` any completion-order
arrangement of the tagged units recovers exactly the in-order list.  This
is the correctness of step 3 of the aggregator (spec §4.3). -/
theorem sortBySeq_restores_order (u : Nat → ProfileSummaryRequest)
    (hu : ∀ i, (u i).Seq = i) (n : Nat) (order : List Nat)
    (hperm : order.Perm (List.range n)) :
    sortBySeq (order.map u) = (List.range n).map u := by
  have hp1 : (sortBySeq (order.map u)).Perm ((List.range n).map u) :=
    (List.perm_insertionSort bySeqLE (order.map u)).trans (hperm.map u)
  have hseqs : ((sortBySeq (order.map u)).map (fun r => r.Seq)).Nodup := by
    have h1 : (((List.range n).map u).map (fun r => r.Seq)).Nodup := by
      have : ((List.range n).map u).map (fun r => r.Seq) = List.range n := by
        rw [List.map_map]
        have hcg : ∀ a ∈ List.range n, ((fun r => r.Seq) ∘ u) a = id a :=
          fun a _ => hu a
        rw [List.map_congr_left hcg, List.map_id]
      rw [this]
      exact List.nodup_range n
    exact (hp1.map (fun r => r.Seq)).symm.nodup h1
  have hs1 : (sortBySeq (order.map u)).Sorted bySeqLT :=
    sorted_bySeqLT_of_le_of_nodup _
      (List.sorted_insertionSort bySeqLE (order.map u)) hseqs
  have hs2 : ((List.range n).map u).Sorted bySeqLT :=
    sorted_bySeqLT_map_range u hu n
  exact List.eq_of_perm_of_sorted hp1 hs1 hs2

/-- C1: for every ID page and every completion order of the concurrent
units, when no unit reports an error the gather phase of `GetProfiles`
returns status 200 with no error and a summary list of exactly the input
length in exactly the input order: the i-th summary is the one fetched by
the unit spawned for the i-th input ID. -/
theorem c1_getProfiles_order_preserved (ids : List Int)
    (fetch : Nat → Int → UnitOutcome) (order : List Nat)
    (hperm : order.Perm (List.range ids.length))
    (hok : ∀ i, i < ids.length → (fetch i (ids.getD i 0)).Err = none) :
    (profilesAggregate ids fetch order).1 =
      { ems := (List.range ids.length).map
          (fun i => (fetch i (ids.getD i 0)).Item),
        status := 200, err := none } ∧
    (profilesAggregate ids fetch order).1.ems.length = ids.length := by
  have hfind : (order.map (fun seq =>
      HandleProfileSummaryRequest seq (fetch seq (ids.getD seq 0)))).find?
      (fun r => r.Err.isSome) = none := by
    rw [List.find?_eq_none]
    intro x hx
    obtain ⟨i, hi, rfl⟩ := List.mem_map.mp hx
    have hilt : i < ids.length := List.mem_range.mp (hperm.mem_iff.mp hi)
    show ¬((fetch i (ids.getD i 0)).Err.isSome = true)
    rw [hok i hilt]
    simp
  have hsort : sortBySeq (order.map (fun seq =>
      HandleProfileSummaryRequest seq (fetch seq (ids.getD seq 0)))) =
      (List.range ids.length).map (fun seq =>
        HandleProfileSummaryRequest seq (fetch seq (ids.getD seq 0))) :=
    sortBySeq_restores_order _ (fun _ => rfl) ids.length order hperm
  constructor
  · simp only [profilesAggregate, hfind, hsort, List.map_map]
    rfl
  · simp only [profilesAggregate, hfind, hsort, List.map_map]
    simp [HandleProfileSummaryRequest]

/-- Witness for C1 at a concrete page: ids `[5, 6]`, completion order
`[1, 0]` (second unit finishes first), distinct items per unit. -/
theorem c1_getProfiles_order_preserved_witness :
    ([1, 0] : List Nat).Perm (List.range 2) ∧
    (profilesAggregate [5, 6]
        (fun seq id =>
          { Item := { Id := id, UserId := Int.ofNat seq }, Status := 200,
            Err := none, write := none }) [1, 0]).1 =
      { ems := [{ Id := 5, UserId := 0 }, { Id := 6, UserId := 1 }],
        status := 200, err := none } := by
  refine ⟨by decide, ?_⟩
  have h := c1_getProfiles_order_preserved [5, 6]
    (fun seq id =>
      { Item := { Id := id, UserId := Int.ofNat seq }, Status := 200,
        Err := none, write := none }) [1, 0] (by decide) (fun _ _ => rfl)
  rw [h.1]
  rfl

/-- C2: if at least one unit reports a non-nil error, the gather phase
returns an empty summary list together with a failed unit's status and
error (never a partial page), and — because exactly `ids.length` responses
are collected before the error scan — every unit's completed cache write
is still among the performed writes. -/
theorem c2_gather_error_all_or_nothing (ids : List Int)
    (fetch : Nat → Int → UnitOutcome) (order : List Nat)
    (hperm : order.Perm (List.range ids.length))
    (hfail : ∃ i, i < ids.length ∧ (fetch i (ids.getD i 0)).Err ≠ none) :
    (profilesAggregate ids fetch order).1.ems = [] ∧
    (profilesAggregate ids fetch order).1.err ≠ none ∧
    (∃ j, j < ids.length ∧ (fetch j (ids.getD j 0)).Err ≠ none ∧
      (profilesAggregate ids fetch order).1.status =
        (fetch j (ids.getD j 0)).Status ∧
      (profilesAggregate ids fetch order).1.err =
        (fetch j (ids.getD j 0)).Err) ∧
    (∀ i, i < ids.length → ∀ w, (fetch i (ids.getD i 0)).write = some w →
      w ∈ (profilesAggregate ids fetch order).2) := by
  obtain ⟨i0, hi0, herr0⟩ := hfail
  have hmem0 : HandleProfileSummaryRequest i0 (fetch i0 (ids.getD i0 0)) ∈
      order.map (fun seq =>
        HandleProfileSummaryRequest seq (fetch seq (ids.getD seq 0))) :=
    List.mem_map.mpr ⟨i0,
      hperm.mem_iff.mpr (List.mem_range.mpr hi0), rfl⟩
  have hfound : ((order.map (fun seq =>
      HandleProfileSummaryRequest seq (fetch seq (ids.getD seq 0)))).find?
      (fun r => r.Err.isSome)).isSome = true := by
    rw [List.find?_isSome]
    exact ⟨_, hmem0, Option.isSome_iff_ne_none.mpr herr0⟩
  obtain ⟨r, hr⟩ := Option.isSome_iff_exists.mp hfound
  obtain ⟨j, hj, hrj⟩ := List.mem_map.mp (List.mem_of_find?_eq_some hr)
  have hjlt : j < ids.length := List.mem_range.mp (hperm.mem_iff.mp hj)
  have hpr : r.Err.isSome = true :=
    List.find?_some (p := fun x : ProfileSummaryRequest => x.Err.isSome) hr
  have hres : profilesAggregate ids fetch order =
      ({ ems := [], status := r.Status, err := r.Err },
       order.filterMap (fun seq => (fetch seq (ids.getD seq 0)).write)) := by
    simp only [profilesAggregate, hr]
  refine ⟨by rw [hres], ?_, ?_, ?_⟩
  · rw [hres]
    exact Option.isSome_iff_ne_none.mp hpr
  · refine ⟨j, hjlt, ?_, ?_, ?_⟩
    · rw [← hrj] at hpr
      exact Option.isSome_iff_ne_none.mp hpr
    · rw [hres, ← hrj]
      rfl
    · rw [hres, ← hrj]
      rfl
  · intro i hilt w hw
    rw [hres]
    exact List.mem_filterMap.mpr
      ⟨i, hperm.mem_iff.mpr (List.mem_range.mpr hilt), hw⟩

/-- Witness for C2 at a concrete page: ids `[5, 6]`, the unit of seq 1
fails with status 500 while the unit of seq 0 succeeded and wrote its
cache entry; that write is still among the performed writes. -/
theorem c2_gather_error_all_or_nothing_witness :
    (profilesAggregate [5, 6]
        (fun seq id =>
          if seq = 0 then
            { Item := { Id := id }, Status := 200, Err := none,
              write := some ("ps_5", { value := CacheValue.vInt64 1,
                                       expires := 10 }) }
          else
            { Item := {}, Status := 500, Err := some "boom",
              write := none }) [1, 0]).1.ems = [] ∧
    ("ps_5", ({ value := CacheValue.vInt64 1, expires := 10 } : CacheEntry)) ∈
      (profilesAggregate [5, 6]
        (fun seq id =>
          if seq = 0 then
            { Item := { Id := id }, Status := 200, Err := none,
              write := some ("ps_5", { value := CacheValue.vInt64 1,
                                       expires := 10 }) }
          else
            { Item := {}, Status := 500, Err := some "boom",
              write := none }) [1, 0]).2 := by
  have h := c2_gather_error_all_or_nothing [5, 6]
    (fun seq id =>
      if seq = 0 then
        { Item := { Id := id }, Status := 200, Err := none,
          write := some ("ps_5", { value := CacheValue.vInt64 1,
                                   expires := 10 }) }
      else
        { Item := {}, Status := 500, Err := some "boom", write := none })
    [1, 0] (by decide) ⟨1, by decide, by simp⟩
  exact ⟨h.1, h.2.2.2 0 (by decide) _ rfl⟩

/-- The first element of a mapped list satisfying the error predicate,
located by the position `k` of the first failing index in the underlying
list. -/
theorem find?_map_first_failure (u : Nat → ProfileSummaryRequest)
    (l : List Nat) (k : Nat) (hk : k < l.length)
    (hb : ∀ j, j < k → (u (l.getD j 0)).Err = none)
    (hf : (u (l.getD k 0)).Err ≠ none) :
    (l.map u).find? (fun r => r.Err.isSome) = some (u (l.getD k 0)) := by
  induction l generalizing k with
  | nil => exact absurd hk (Nat.not_lt_zero k)
  | cons a t ih =>
    cases k with
    | zero =>
      have hpa : (u a).Err.isSome = true := by
        rw [Option.isSome_iff_ne_none]
        simpa using hf
      rw [List.map_cons,
        List.find?_cons_of_pos
          (p := fun r : ProfileSummaryRequest => r.Err.isSome) _ hpa,
        List.getD_cons_zero]
    | succ k =>
      have h0 : (u a).Err = none := by
        simpa using hb 0 (Nat.succ_pos k)
      have hpa : ¬((u a).Err.isSome = true) := by
        rw [h0]
        simp
      rw [List.map_cons,
        List.find?_cons_of_neg
          (p := fun r : ProfileSummaryRequest => r.Err.isSome) _ hpa,
        List.getD_cons_succ]
      exact ih k (Nat.lt_of_succ_lt_succ hk)
        (fun j hj => by simpa using hb (j + 1) (Nat.succ_lt_succ hj))
        (by simpa using hf)

/-- C6 amended: the error scan of the gather phase runs over the responses
in completion (arrival) order, BEFORE the sort by `Seq`; the status/error
surfaced for the whole page is that of the earliest failed unit in
completion order — the unit at the first failing position `k` of `order` —
not the failed unit with the smallest `Seq`. -/
theorem c6_amended_error_scan_in_completion_order (ids : List Int)
    (fetch : Nat → Int → UnitOutcome) (order : List Nat) (k : Nat)
    (hk : k < order.length)
    (hb : ∀ j, j < k →
      (fetch (order.getD j 0) (ids.getD (order.getD j 0) 0)).Err = none)
    (hf : (fetch (order.getD k 0) (ids.getD (order.getD k 0) 0)).Err ≠ none) :
    (profilesAggregate ids fetch order).1.ems = [] ∧
    (profilesAggregate ids fetch order).1.status =
      (fetch (order.getD k 0) (ids.getD (order.getD k 0) 0)).Status ∧
    (profilesAggregate ids fetch order).1.err =
      (fetch (order.getD k 0) (ids.getD (order.getD k 0) 0)).Err := by
  have hfind := find?_map_first_failure
    (fun seq => HandleProfileSummaryRequest seq (fetch seq (ids.getD seq 0)))
    order k hk (fun j hj => hb j hj) hf
  have hres : profilesAggregate ids fetch order =
      ({ ems := [],
         status := (fetch (order.getD k 0) (ids.getD (order.getD k 0) 0)).Status,
         err := (fetch (order.getD k 0) (ids.getD (order.getD k 0) 0)).Err },
       order.filterMap (fun seq => (fetch seq (ids.getD seq 0)).write)) := by
    simp only [profilesAggregate, hfind]
    rfl
  rw [hres]
  exact ⟨rfl, rfl, rfl⟩

/-- Per-unit outcomes used for the C6 scenario: both units fail; the unit
of seq 0 carries status 500 / error "e0"; the unit of seq 1 carries status
502 / error "e1". -/
def c6Fetch : Nat → Int → UnitOutcome := fun seq _ =>
  if seq = 0 then
    { Item := {}, Status := 500, Err := some "e0", write := none }
  else
    { Item := {}, Status := 502, Err := some "e1", write := none }

/-- C6 counterexample: with input ids `[10, 20]`, both units failed, and
completion order `[1, 0]` (the unit of seq 1 arrives first), the gather
phase of `GetProfiles` surfaces status 502 / error "e1" — the failure of
the unit with the LARGER Seq — although the failed unit with the smallest
Seq has status 500 / error "e0", contradicting the claim that the scan
happens after the sort by Seq. -/
theorem c6_counterexample_scan_before_sort :
    (profilesAggregate [10, 20] c6Fetch [1, 0]).1.status = 502 ∧
    (profilesAggregate [10, 20] c6Fetch [1, 0]).1.err = some "e1" ∧
    (c6Fetch 0 10).Err ≠ none ∧
    (c6Fetch 0 10).Status = 500 ∧
    (profilesAggregate [10, 20] c6Fetch [1, 0]).1.status ≠ 500 := by
  refine ⟨rfl, rfl, by simp [c6Fetch], rfl, by decide⟩

/-- Witness for the amended C6 at the same concrete scenario: position 0
of the completion order `[1, 0]` holds the first (and earliest-arriving)
failing unit, namely seq 1, and its status/error are the ones surfaced. -/
theorem c6_amended_witness :
    (profilesAggregate [10, 20] c6Fetch [1, 0]).1.ems = [] ∧
    (profilesAggregate [10, 20] c6Fetch [1, 0]).1.status = (c6Fetch 1 20).Status ∧
    (profilesAggregate [10, 20] c6Fetch [1, 0]).1.err = (c6Fetch 1 20).Err := by
  have h := c6_amended_error_scan_in_completion_order [10, 20] c6Fetch [1, 0]
    0 (by decide) (fun j hj => absurd hj (Nat.not_lt_zero j)) (by simp [c6Fetch])
  exact h

/-- C5: for every non-negative total and positive limit, `GetPageCount` is
exactly the ceiling of `total/limit` (characterised as the least
non-negative page count covering `total`), `GetMaxOffset` is
`max 0 ((pages-1)*limit)`, the list-request tail rejects any offset above
the maximum with HTTP 400 and the "empty page" user error, and accepts
`offset = maxOffset`; concretely total=25, limit=10 gives pages=3 and
maxOffset=20, rejecting offset=21 and accepting offset=20. -/
theorem c5_pagination_compute (total limit offset : Int)
    (ht : 0 ≤ total) (hl : 0 < limit) :
    total ≤ GetPageCount total limit * limit ∧
    (GetPageCount total limit - 1) * limit < total ∧
    (∀ q, 0 ≤ q → total ≤ q * limit → GetPageCount total limit ≤ q) ∧
    GetMaxOffset total limit = max 0 ((GetPageCount total limit - 1) * limit) ∧
    (GetMaxOffset total limit < offset →
      offsetCheck total limit offset =
        (400, some ("not enough records, offset (" ++ toString offset ++
          ") would return an empty page."))) ∧
    (offset = GetMaxOffset total limit →
      offsetCheck total limit offset = (200, none)) ∧
    GetPageCount 25 10 = 3 ∧ GetMaxOffset 25 10 = 20 ∧
    (offsetCheck 25 10 21).1 = 400 ∧ offsetCheck 25 10 20 = (200, none) := by
  have hl0 : limit ≠ 0 := ne_of_gt hl
  have hdm := Int.ediv_add_emod (total + limit - 1) limit
  have hrnn := Int.emod_nonneg (total + limit - 1) hl0
  have hrlt := Int.emod_lt_of_pos (total + limit - 1) hl
  have hpc : GetPageCount total limit = (total + limit - 1) / limit := rfl
  refine ⟨?_, ?_, ?_, rfl, ?_, ?_, by decide, by decide, by decide, by decide⟩
  · rw [hpc]
    have hmc := mul_comm ((total + limit - 1) / limit) limit
    linarith [hdm, hrlt, hmc]
  · rw [hpc]
    have hmc := mul_comm ((total + limit - 1) / limit) limit
    have hsm := sub_mul ((total + limit - 1) / limit) 1 limit
    have hom := one_mul limit
    linarith [hdm, hrnn, hsm, hom, hmc]
  · intro q hqnn hqle
    rw [hpc]
    by_contra hcon
    push_neg at hcon
    have hq1 : q ≤ (total + limit - 1) / limit - 1 := by omega
    have hmono : q * limit ≤ ((total + limit - 1) / limit - 1) * limit :=
      mul_le_mul_of_nonneg_right hq1 (le_of_lt hl)
    have hmc := mul_comm ((total + limit - 1) / limit) limit
    have hsm := sub_mul ((total + limit - 1) / limit) 1 limit
    have hom := one_mul limit
    linarith [hdm, hrnn, hmono, hqle, hsm, hom, hmc]
  · intro h
    simp only [offsetCheck, if_pos h]
  · intro h
    have hnot : ¬(GetMaxOffset total limit < offset) := by
      rw [h]
      exact lt_irrefl _
    simp only [offsetCheck, if_neg hnot]

/-- Witness for C5 at total=25, limit=10, offset=21. -/
theorem c5_pagination_compute_witness :
    (0 : Int) ≤ 25 ∧ (0 : Int) < 10 ∧
    (offsetCheck 25 10 21).1 = 400 ∧ offsetCheck 25 10 20 = (200, none) := by
  have h := c5_pagination_compute 25 10 21 (by decide) (by decide)
  exact ⟨by decide, by decide, h.2.2.2.2.2.2.2.2.1, h.2.2.2.2.2.2.2.2.2⟩

/-- The all-success environment for `EventType.Insert`: transaction,
INSERT, counter increment and commit all succeed. -/
def insertEnvOk : InsertEnv :=
  { txOk := true, insertOk := true, incrementOk := true, commitOk := true }

/-- C4: two `EventType.Insert` calls with identical semantically-significant
fields, the second within 300 seconds of the first, insert exactly one row
and both return status 200 with the same event ID; the second call hits
the fingerprint and returns without opening a transaction, and immediately
after the successful commit the fingerprint is remembered until exactly
`t1 + 300` (TTL 60*5 seconds). -/
theorem c4_event_insert_dedup (e : EventFields) (cache0 : Cache)
    (db0 : EventsDb) (t1 t2 : Int)
    (hmiss : CacheGetInt64 cache0 t1 (dupeKey e) = none)
    (httl : t2 < t1 + 300) :
    (EventTypeInsert insertEnvOk e cache0 db0 t1).1.status = 200 ∧
    (EventTypeInsert insertEnvOk e cache0 db0 t1).1.err = none ∧
    (EventTypeInsert insertEnvOk e cache0 db0 t1).2.2.rows =
      db0.rows ++ [((EventTypeInsert insertEnvOk e cache0 db0 t1).1.id, e)] ∧
    (∀ t : Int, cacheLookup (EventTypeInsert insertEnvOk e cache0 db0 t1).2.1
      t (dupeKey e) =
      if t < t1 + 300 then
        some (CacheValue.vInt64 (EventTypeInsert insertEnvOk e cache0 db0 t1).1.id)
      else none) ∧
    (EventTypeInsert insertEnvOk e
      (EventTypeInsert insertEnvOk e cache0 db0 t1).2.1
      (EventTypeInsert insertEnvOk e cache0 db0 t1).2.2 t2).1.status = 200 ∧
    (EventTypeInsert insertEnvOk e
      (EventTypeInsert insertEnvOk e cache0 db0 t1).2.1
      (EventTypeInsert insertEnvOk e cache0 db0 t1).2.2 t2).1.err = none ∧
    (EventTypeInsert insertEnvOk e
      (EventTypeInsert insertEnvOk e cache0 db0 t1).2.1
      (EventTypeInsert insertEnvOk e cache0 db0 t1).2.2 t2).1.id =
      (EventTypeInsert insertEnvOk e cache0 db0 t1).1.id ∧
    (EventTypeInsert insertEnvOk e
      (EventTypeInsert insertEnvOk e cache0 db0 t1).2.1
      (EventTypeInsert insertEnvOk e cache0 db0 t1).2.2 t2).1.txOpened = false ∧
    (EventTypeInsert insertEnvOk e
      (EventTypeInsert insertEnvOk e cache0 db0 t1).2.1
      (EventTypeInsert insertEnvOk e cache0 db0 t1).2.2 t2).2.2 =
      (EventTypeInsert insertEnvOk e cache0 db0 t1).2.2 := by
  have h1 : EventTypeInsert insertEnvOk e cache0 db0 t1 =
      ({ id := db0.nextId, status := 200, err := none, txOpened := true,
         purges := [PurgeOp.all ItemTypeEvent db0.nextId,
                    PurgeOp.all ItemTypeMicrocosm e.MicrocosmId] },
       CacheSetInt64 cache0 t1 (dupeKey e) db0.nextId (60*5),
       { rows := db0.rows ++ [(db0.nextId, e)], nextId := db0.nextId + 1 }) := by
    simp only [EventTypeInsert, hmiss, insertEnvOk, Bool.not_true,
      Bool.false_eq_true, if_false]
  have hlook : ∀ t : Int,
      cacheLookup (CacheSetInt64 cache0 t1 (dupeKey e) db0.nextId (60*5))
        t (dupeKey e) =
      if t < t1 + 300 then some (CacheValue.vInt64 db0.nextId) else none := by
    intro t
    simp only [CacheSetInt64, CacheSet, cacheLookup]
    rw [List.find?_cons_of_pos _ (by simp)]
    norm_num
  have hget2 : CacheGetInt64 (CacheSetInt64 cache0 t1 (dupeKey e) db0.nextId
      (60*5)) t2 (dupeKey e) = some db0.nextId := by
    simp only [CacheGetInt64, hlook t2, if_pos httl]
  have h2 : EventTypeInsert insertEnvOk e
      (CacheSetInt64 cache0 t1 (dupeKey e) db0.nextId (60*5))
      { rows := db0.rows ++ [(db0.nextId, e)], nextId := db0.nextId + 1 } t2 =
      ({ id := db0.nextId, status := 200, err := none, txOpened := false,
         purges := [] },
       CacheSetInt64 cache0 t1 (dupeKey e) db0.nextId (60*5),
       { rows := db0.rows ++ [(db0.nextId, e)], nextId := db0.nextId + 1 }) := by
    simp only [EventTypeInsert, hget2]
  rw [h1]
  refine ⟨rfl, rfl, rfl, hlook, ?_, ?_, ?_, ?_, ?_⟩ <;> rw [h2]

/-- Witness for C4: empty cache, events table with next ID 7, first call
at t=100, retry at t=399 (within the 300-second window). -/
theorem c4_event_insert_dedup_witness :
    CacheGetInt64 [] 100 (dupeKey {}) = none ∧ (399 : Int) < 100 + 300 ∧
    (EventTypeInsert insertEnvOk {} [] { rows := [], nextId := 7 } 100).1.status
      = 200 ∧
    (EventTypeInsert insertEnvOk {}
      (EventTypeInsert insertEnvOk {} [] { rows := [], nextId := 7 } 100).2.1
      (EventTypeInsert insertEnvOk {} [] { rows := [], nextId := 7 } 100).2.2
      399).1.id =
      (EventTypeInsert insertEnvOk {} [] { rows := [], nextId := 7 } 100).1.id ∧
    (EventTypeInsert insertEnvOk {}
      (EventTypeInsert insertEnvOk {} [] { rows := [], nextId := 7 } 100).2.1
      (EventTypeInsert insertEnvOk {} [] { rows := [], nextId := 7 } 100).2.2
      399).1.txOpened = false := by
  have h := c4_event_insert_dedup {} [] { rows := [], nextId := 7 } 100 399
    rfl (by decide)
  exact ⟨rfl, by decide, h.1, h.2.2.2.2.2.2.1, h.2.2.2.2.2.2.2.1⟩

/-- C3, failing input for `GetEvent`: the cache holds the Detail entry of
event 9 (cached when site 1 served it; the event is NOT visible on site 2:
the detail query returns no rows there) and a summary for its creator,
profile 3.  `GetEvent` for siteId 2 returns the cached event with no error
— it performs no comparison of the cached value against the caller's
siteId (the source's own TODO at src/models/events.go:648-649 concedes the
check is missing) — instead of rejecting the cross-tenant hit as NotFound.
`GetProfile` and `GetProfileSummary`, by contrast, do perform the check
(the `m.SiteId ≠ siteId` branch of `GetProfileSummary` above). -/
theorem c3_getEvent_returns_foreign_cached_event :
    (GetEvent (fun _ _ => DbRes.noRows) (fun _ _ => DbRes.noRows)
      (fun _ => Except.error "unused")
      [(mcEventKeyDetail 9,
        { value := CacheValue.vEvent { Id := 9, CreatedById := 3 },
          expires := 1000 }),
       (mcProfileKeySummary 3,
        { value := CacheValue.vProfileSummary { Id := 3, SiteId := 2 },
          expires := 1000 })]
      0 2 9 0).1 =
      ({ Id := 9, CreatedById := 3,
         CreatedBy := some { Id := 3, SiteId := 2 } }, 0, none) ∧
    (GetEvent (fun _ _ => DbRes.noRows) (fun _ _ => DbRes.noRows)
      (fun _ => Except.error "unused")
      [(mcEventKeyDetail 9,
        { value := CacheValue.vEvent { Id := 9, CreatedById := 3 },
          expires := 1000 }),
       (mcProfileKeySummary 3,
        { value := CacheValue.vProfileSummary { Id := 3, SiteId := 2 },
          expires := 1000 })]
      0 2 9 0).1.2.1 ≠ 404 := by
  exact ⟨by decide, by decide⟩

/-- C7 counterexample: in `ProfileType.insert`, when every step up to and
including the commit succeeds but the post-commit `GetUser` call fails,
the operation returns an error and performs NO purge although the
surrounding transaction committed successfully — refuting the claimed
"if and only if the transaction commits, a purge is invoked". -/
theorem c7_counterexample_commit_without_purge :
    (ProfileTypeInsert
      { txOk := true, insertOk := true, optionsLoadOk := true,
        optionsInsertOk := true, commitOk := true, getUserOk := false,
        gravatarOk := true, attachOk := true, updateOk := true } 11).committed
      = true ∧
    (ProfileTypeInsert
      { txOk := true, insertOk := true, optionsLoadOk := true,
        optionsInsertOk := true, commitOk := true, getUserOk := false,
        gravatarOk := true, attachOk := true, updateOk := true } 11).purges
      = [] ∧
    (ProfileTypeInsert
      { txOk := true, insertOk := true, optionsLoadOk := true,
        optionsInsertOk := true, commitOk := true, getUserOk := false,
        gravatarOk := true, attachOk := true, updateOk := true } 11).err
      ≠ none := by
  exact ⟨rfl, rfl, by decide⟩

/-- C7 amended: for `ProfileType.Update`, `EventType.Update` and the
counter increments, a purge of the entity's cache is performed exactly
when the mutation was applied (the transaction committed, resp. the
UPDATE succeeded), and an error before the commit means no purge; for
`ProfileType.insert`, an error-free run purges after its commit and no
purge happens when the transaction did not commit — but a failure after
the commit (see the counterexample) returns an error with no purge
despite the successful commit. -/
theorem c7_amended_purge_on_commit (pv ev : Option (Nat × String))
    (ptx pexec pcommit etx eexec eatt ecommit : Bool)
    (itx iins iopl iopi icom iusr igrv iatt iupd cconn cexec : Bool)
    (profileId eventId microcosmId pid2 : Int) :
    ((ProfileTypeUpdate
        { validateErr := pv, txOk := ptx, execOk := pexec,
          commitOk := pcommit } profileId).purges ≠ [] ↔
      (ProfileTypeUpdate
        { validateErr := pv, txOk := ptx, execOk := pexec,
          commitOk := pcommit } profileId).committed = true) ∧
    ((EventTypeUpdate
        { validateErr := ev, txOk := etx, execOk := eexec,
          attendeesOk := eatt, commitOk := ecommit }
        eventId microcosmId).purges ≠ [] ↔
      (EventTypeUpdate
        { validateErr := ev, txOk := etx, execOk := eexec,
          attendeesOk := eatt, commitOk := ecommit }
        eventId microcosmId).committed = true) ∧
    ((ProfileTypeInsert
        { txOk := itx, insertOk := iins, optionsLoadOk := iopl,
          optionsInsertOk := iopi, commitOk := icom, getUserOk := iusr,
          gravatarOk := igrv, attachOk := iatt, updateOk := iupd }
        pid2).committed = false →
      (ProfileTypeInsert
        { txOk := itx, insertOk := iins, optionsLoadOk := iopl,
          optionsInsertOk := iopi, commitOk := icom, getUserOk := iusr,
          gravatarOk := igrv, attachOk := iatt, updateOk := iupd }
        pid2).purges = []) ∧
    ((ProfileTypeInsert
        { txOk := itx, insertOk := iins, optionsLoadOk := iopl,
          optionsInsertOk := iopi, commitOk := icom, getUserOk := iusr,
          gravatarOk := igrv, attachOk := iatt, updateOk := iupd }
        pid2).err = none →
      (ProfileTypeInsert
        { txOk := itx, insertOk := iins, optionsLoadOk := iopl,
          optionsInsertOk := iopi, commitOk := icom, getUserOk := iusr,
          gravatarOk := igrv, attachOk := iatt, updateOk := iupd }
        pid2).purges ≠ [] ∧
      (ProfileTypeInsert
        { txOk := itx, insertOk := iins, optionsLoadOk := iopl,
          optionsInsertOk := iopi, commitOk := icom, getUserOk := iusr,
          gravatarOk := igrv, attachOk := iatt, updateOk := iupd }
        pid2).committed = true) ∧
    ((IncrementProfileCommentCount cconn cexec profileId).purges ≠ [] ↔
      (IncrementProfileCommentCount cconn cexec profileId).applied = true) := by
  refine ⟨?_, ?_, ?_, ?_, ?_⟩
  · match pv with
    | some (st, e) => simp [ProfileTypeUpdate]
    | none => cases ptx <;> cases pexec <;> cases pcommit <;>
        simp [ProfileTypeUpdate]
  · match ev with
    | some (st, e) => simp [EventTypeUpdate]
    | none => cases etx <;> cases eexec <;> cases eatt <;> cases ecommit <;>
        simp [EventTypeUpdate]
  · cases itx <;> cases iins <;> cases iopl <;> cases iopi <;> cases icom <;>
      cases iusr <;> cases igrv <;> cases iatt <;> cases iupd <;>
      simp [ProfileTypeInsert]
  · cases itx <;> cases iins <;> cases iopl <;> cases iopi <;> cases icom <;>
      cases iusr <;> cases igrv <;> cases iatt <;> cases iupd <;>
      simp [ProfileTypeInsert]
  · cases cconn <;> cases cexec <;> simp [IncrementProfileCommentCount]

/-- Witness for the amended C7 at a concrete environment (all steps
succeed; profile 11, event 9 in microcosm 2). -/
theorem c7_amended_purge_on_commit_witness :
    ((ProfileTypeUpdate
        { validateErr := none, txOk := true, execOk := true,
          commitOk := true } 11).purges ≠ [] ↔
      (ProfileTypeUpdate
        { validateErr := none, txOk := true, execOk := true,
          commitOk := true } 11).committed = true) ∧
    ((EventTypeUpdate
        { validateErr := none, txOk := true, execOk := true,
          attendeesOk := true, commitOk := true } 9 2).purges ≠ [] ↔
      (EventTypeUpdate
        { validateErr := none, txOk := true, execOk := true,
          attendeesOk := true, commitOk := true } 9 2).committed = true) ∧
    ((ProfileTypeInsert
        { txOk := true, insertOk := true, optionsLoadOk := true,
          optionsInsertOk := true, commitOk := true, getUserOk := true,
          gravatarOk := true, attachOk := true, updateOk := true }
        11).committed = false →
      (ProfileTypeInsert
        { txOk := true, insertOk := true, optionsLoadOk := true,
          optionsInsertOk := true, commitOk := true, getUserOk := true,
          gravatarOk := true, attachOk := true, updateOk := true }
        11).purges = []) ∧
    ((ProfileTypeInsert
        { txOk := true, insertOk := true, optionsLoadOk := true,
          optionsInsertOk := true, commitOk := true, getUserOk := true,
          gravatarOk := true, attachOk := true, updateOk := true }
        11).err = none →
      (ProfileTypeInsert
        { txOk := true, insertOk := true, optionsLoadOk := true,
          optionsInsertOk := true, commitOk := true, getUserOk := true,
          gravatarOk := true, attachOk := true, updateOk := true }
        11).purges ≠ [] ∧
      (ProfileTypeInsert
        { txOk := true, insertOk := true, optionsLoadOk := true,
          optionsInsertOk := true, commitOk := true, getUserOk := true,
          gravatarOk := true, attachOk := true, updateOk := true }
        11).committed = true) ∧
    ((IncrementProfileCommentCount true true 11).purges ≠ [] ↔
      (IncrementProfileCommentCount true true 11).applied = true) :=
  c7_amended_purge_on_commit none none true true true true true true true
    true true true true true true true true true true true 11 9 2 11

/-- C8 counterexample: with an empty cache and a store with no row for
event 42, `GetEventSummary` returns status 500
(`StatusInternalServerError`), not 404 (`StatusNotFound`), refuting the
claim that both summary fetchers return a NotFound status; the cache is
left untouched. -/
theorem c8_counterexample_event_summary_norows_is_500 :
    (GetEventSummary (fun _ => DbRes.noRows) (fun _ _ => DbRes.noRows)
      (fun _ => Except.error "unused") (fun _ => Except.ok none)
      [] 0 2 42 0).1.2.1 = 500 ∧
    (GetEventSummary (fun _ => DbRes.noRows) (fun _ _ => DbRes.noRows)
      (fun _ => Except.error "unused") (fun _ => Except.ok none)
      [] 0 2 42 0).1.2.1 ≠ 404 ∧
    (GetEventSummary (fun _ => DbRes.noRows) (fun _ _ => DbRes.noRows)
      (fun _ => Except.error "unused") (fun _ => Except.ok none)
      [] 0 2 42 0).2 = [] := by
  exact ⟨by decide, by decide, by decide⟩

/-- C8 amended: when the data store has no row for the requested id and
the cache has no summary entry, `GetProfileSummary` returns 404 with an
error while `GetEventSummary` returns 500 (`StatusInternalServerError`)
with a "... not found" error; in both cases the not-found result is
propagated without writing any cache entry (no negative caching). -/
theorem c8_amended_norows_propagated_uncached
    (db : Int → Int → DbRes ProfileSummaryType)
    (dbEvSum : Int → DbRes EventSummaryType)
    (dbProfile : Int → Int → DbRes ProfileSummaryType)
    (dbAttendees : Int → Except String (List Int))
    (lastComment : Int → Except (Nat × String) (Option LastComment))
    (cache : Cache) (now siteId id profileId : Int)
    (hid : id ≠ 0)
    (hpmiss : CacheGetProfileSummary cache now (mcProfileKeySummary id) = none)
    (hpnr : db siteId id = DbRes.noRows)
    (hemiss : CacheGetEventSummary cache now (mcEventKeySummary id) = none)
    (henr : dbEvSum id = DbRes.noRows) :
    GetProfileSummary db cache now siteId id =
      (({}, 404,
        some ("Resource with profile ID " ++ toString id ++ " not found")),
       cache) ∧
    GetEventSummary dbEvSum dbProfile dbAttendees lastComment cache now
        siteId id profileId =
      (({}, 500, some ("Event with ID " ++ toString id ++ " not found")),
       cache) := by
  constructor
  · simp only [GetProfileSummary, if_neg hid, hpmiss, hpnr]
  · simp only [GetEventSummary, if_neg hid, hemiss, henr]

/-- Witness for the amended C8: empty cache, store with no row for id 42. -/
theorem c8_amended_norows_witness :
    GetProfileSummary (fun _ _ => DbRes.noRows) [] 0 2 42 =
      (({}, 404, some "Resource with profile ID 42 not found"), []) ∧
    GetEventSummary (fun _ => DbRes.noRows) (fun _ _ => DbRes.noRows)
        (fun _ => Except.error "unused") (fun _ => Except.ok none)
        [] 0 2 42 0 =
      (({}, 500, some "Event with ID 42 not found"), []) := by
  have h := c8_amended_norows_propagated_uncached
    (fun _ _ => DbRes.noRows) (fun _ => DbRes.noRows)
    (fun _ _ => DbRes.noRows) (fun _ => Except.error "unused")
    (fun _ => Except.ok none) [] 0 2 42 0
    (by decide) rfl rfl rfl rfl
  exact ⟨h.1, h.2⟩

/-- Removing a key from the cache makes lookups of that key miss. -/
theorem cacheLookup_filter_self (cache : Cache) (now : Int) (key : String) :
    cacheLookup (cache.filter (fun kv => kv.1 ≠ key)) now key = none := by
  unfold cacheLookup
  have hfind : (cache.filter (fun kv => kv.1 ≠ key)).find?
      (fun kv => kv.1 == key) = none := by
    rw [List.find?_eq_none]
    intro x hx
    have hne := (List.mem_filter.mp hx).2
    simp at hne
    simp [hne]
  rw [hfind]

/-- C9: a cached value of the wrong shape is never surfaced as an error by
the get-or-compute fetchers.  If the summary key of profile `id` holds a
value that is not a `ProfileSummaryType`, `GetProfileSummary` returns
exactly the triple it would return had the entry been absent, and on a
successful store read it repopulates the key; likewise, if the attendee
key of `eventId` holds a value that is not an integer list, `IsAttending`
returns exactly what it would on a miss and repopulates the key from the
store. -/
theorem c9_shape_mismatch_treated_as_miss
    (db : Int → Int → DbRes ProfileSummaryType)
    (dbAttendees : Int → Except String (List Int))
    (cache : Cache) (now siteId id profileId eventId : Int)
    (v w : CacheValue)
    (hpv : cacheLookup cache now (mcProfileKeySummary id) = some v)
    (hpshape : ∀ s, v ≠ CacheValue.vProfileSummary s)
    (hav : cacheLookup cache now (mcEventKeyProfileIds eventId) = some w)
    (hashape : ∀ l, w ≠ CacheValue.vInt64Slice l) :
    (GetProfileSummary db cache now siteId id).1 =
      (GetProfileSummary db
        (cache.filter (fun kv => kv.1 ≠ mcProfileKeySummary id))
        now siteId id).1 ∧
    (∀ m0, db siteId id = DbRes.row m0 → id ≠ 0 →
      (GetProfileSummary db cache now siteId id).2 =
        CacheSet cache now (mcProfileKeySummary id)
          (CacheValue.vProfileSummary (profileSummaryEnrich m0)) mcTtl) ∧
    (IsAttending dbAttendees cache now profileId eventId).1 =
      (IsAttending dbAttendees
        (cache.filter (fun kv => kv.1 ≠ mcEventKeyProfileIds eventId))
        now profileId eventId).1 ∧
    (∀ ids0, dbAttendees eventId = Except.ok ids0 → profileId ≠ 0 →
      eventId ≠ 0 →
      IsAttending dbAttendees cache now profileId eventId =
        (Except.ok (ids0.contains profileId),
         CacheSet cache now (mcEventKeyProfileIds eventId)
           (CacheValue.vInt64Slice ids0) mcTtl)) := by
  have hpg : CacheGetProfileSummary cache now (mcProfileKeySummary id)
      = none := by
    unfold CacheGetProfileSummary
    rw [hpv]
    cases v with
    | vProfileSummary s => exact absurd rfl (hpshape s)
    | vEvent e => rfl
    | vEventSummary s => rfl
    | vInt64 n => rfl
    | vInt64Slice l => rfl
  have hpg2 : CacheGetProfileSummary
      (cache.filter (fun kv => kv.1 ≠ mcProfileKeySummary id)) now
      (mcProfileKeySummary id) = none := by
    unfold CacheGetProfileSummary
    rw [cacheLookup_filter_self]
  have hag : CacheGetInt64Slice cache now (mcEventKeyProfileIds eventId)
      = none := by
    unfold CacheGetInt64Slice
    rw [hav]
    cases w with
    | vInt64Slice l => exact absurd rfl (hashape l)
    | vProfileSummary s => rfl
    | vEvent e => rfl
    | vEventSummary s => rfl
    | vInt64 n => rfl
  have hag2 : CacheGetInt64Slice
      (cache.filter (fun kv => kv.1 ≠ mcEventKeyProfileIds eventId)) now
      (mcEventKeyProfileIds eventId) = none := by
    unfold CacheGetInt64Slice
    rw [cacheLookup_filter_self]
  refine ⟨?_, ?_, ?_, ?_⟩
  · by_cases hid : id = 0
    · simp only [GetProfileSummary, if_pos hid]
    · simp only [GetProfileSummary, if_neg hid, hpg, hpg2]
      cases hdb : db siteId id <;> rfl
  · intro m0 hdb hid
    simp only [GetProfileSummary, if_neg hid, hpg, hdb]
  · by_cases h0 : profileId = 0 ∨ eventId = 0
    · simp only [IsAttending, if_pos h0]
    · simp only [IsAttending, if_neg h0, hag, hag2]
      cases hdb : dbAttendees eventId <;> rfl
  · intro ids0 hdb hp he
    have h0 : ¬(profileId = 0 ∨ eventId = 0) := by
      intro hc
      cases hc with
      | inl h => exact hp h
      | inr h => exact he h
    simp only [IsAttending, if_neg h0, hag, hdb]

/-- Witness for C9: a cache whose profile-summary slot for id 4 holds an
integer and whose attendee slot for event 6 holds a plain integer as
well; the store answers normally and the fetchers behave as on a miss. -/
theorem c9_shape_mismatch_witness :
    (GetProfileSummary (fun _ _ => DbRes.noRows)
      [(mcProfileKeySummary 4, { value := CacheValue.vInt64 99,
                                 expires := 1000 }),
       (mcEventKeyProfileIds 6, { value := CacheValue.vInt64 3,
                                  expires := 1000 })] 0 2 4).1 =
      (({}, 404, some "Resource with profile ID 4 not found")) ∧
    IsAttending (fun _ => Except.ok [5])
      [(mcProfileKeySummary 4, { value := CacheValue.vInt64 99,
                                 expires := 1000 }),
       (mcEventKeyProfileIds 6, { value := CacheValue.vInt64 3,
                                  expires := 1000 })] 0 5 6 =
      (Except.ok true,
       CacheSet
         [(mcProfileKeySummary 4, { value := CacheValue.vInt64 99,
                                    expires := 1000 }),
          (mcEventKeyProfileIds 6, { value := CacheValue.vInt64 3,
                                     expires := 1000 })]
         0 (mcEventKeyProfileIds 6) (CacheValue.vInt64Slice [5]) mcTtl) := by
  have h := c9_shape_mismatch_treated_as_miss (fun _ _ => DbRes.noRows)
    (fun _ => Except.ok [5])
    [(mcProfileKeySummary 4, { value := CacheValue.vInt64 99,
                               expires := 1000 }),
     (mcEventKeyProfileIds 6, { value := CacheValue.vInt64 3,
                                expires := 1000 })]
    0 2 4 5 6 (CacheValue.vInt64 99) (CacheValue.vInt64 3)
    (by decide) (fun s h => CacheValue.noConfusion h) (by decide)
    (fun l h => CacheValue.noConfusion h)
  refine ⟨?_, ?_⟩
  · rw [h.1]
    decide
  · have h4 := h.2.2.2 [5] rfl (by decide) (by decide)
    rw [h4]
    rfl

/-- C10: once validation passes and a transaction is obtained,
`IgnoreType.Update` and `IgnoreType.Delete` return `(200, nil)` with the
commit performed, regardless of whether the underlying INSERT/DELETE took
effect — the SQL error is discarded, so the returned triple is identical
for a persisted change and a failed one. -/
theorem c10_ignore_write_errors_discarded (m m1 : IgnoreType)
    (hval : IgnoreValidate m = Except.ok m1) (db : IgnoresDb)
    (execOk : Bool) :
    (IgnoreTypeUpdate true execOk db m).1 =
      { status := 200, err := none, committed := true } ∧
    (IgnoreTypeDelete true execOk db m).1 =
      { status := 200, err := none, committed := true } ∧
    (IgnoreTypeUpdate true execOk db m).1 =
      (IgnoreTypeUpdate true true db m).1 ∧
    (IgnoreTypeDelete true execOk db m).1 =
      (IgnoreTypeDelete true true db m).1 := by
  refine ⟨?_, ?_, ?_, ?_⟩ <;>
    simp only [IgnoreTypeUpdate, IgnoreTypeDelete, hval, Bool.not_true,
      Bool.false_eq_true, if_false]

/-- Witness for C10: a valid ignore of profile 5 over profile 7, with the
INSERT/DELETE failing (`execOk = false`): both calls still return
`(200, nil)` and the result equals the one of a successful write. -/
theorem c10_ignore_write_errors_discarded_witness :
    IgnoreValidate
      { ProfileId := 5, ItemTypeId := 0, ItemType := "profile", ItemId := 7 } =
      Except.ok
        { ProfileId := 5, ItemTypeId := 3, ItemType := "profile",
          ItemId := 7 } ∧
    (IgnoreTypeUpdate true false []
      { ProfileId := 5, ItemTypeId := 0, ItemType := "profile",
        ItemId := 7 }).1 =
      { status := 200, err := none, committed := true } ∧
    (IgnoreTypeDelete true false []
      { ProfileId := 5, ItemTypeId := 0, ItemType := "profile",
        ItemId := 7 }).1 =
      { status := 200, err := none, committed := true } := by
  have h := c10_ignore_write_errors_discarded
    { ProfileId := 5, ItemTypeId := 0, ItemType := "profile", ItemId := 7 }
    { ProfileId := 5, ItemTypeId := 3, ItemType := "profile", ItemId := 7 }
    rfl [] false
  exact ⟨rfl, h.1, h.2.1⟩
